import Mathlib

/-!
Verification of the rate-limited LLM query pipeline of the glygen-ai API
(`glygen_llm_api/backend_utils`): the sliding-window rate limiter, the
LLM retry loop, the parameter mappers, and the search-cache key
derivation and store.  Each Python function is shallowly embedded as an
executable Lean definition; timestamps (Python floats) are modelled as
rationals, Python dicts as records or association lists.
-/

namespace GlygenAI

/-! ## Rate limiter (`llm/rate_limiter.py`) -/

/-- State of `RateLimiter`: capacity, window length in seconds, and the
deque of admission timestamps (front = oldest). -/
structure RateLimiter where
  max_requests : ℕ
  time_window : ℚ
  request_timestamps : List ℚ
deriving DecidableEq, Repr

/-- Model of `RateLimiter.can_make_request`: evict the front timestamps strictly
older than `now - time_window` (the Python `while ... popleft()` loop is
exactly `dropWhile` on the deque), then admit and append `now` iff the
retained count is strictly below `max_requests`.  Returns the Python
boolean result together with the post-call state. -/
def can_make_request (now : ℚ) (s : RateLimiter) : Bool × RateLimiter :=
  if (s.request_timestamps.dropWhile (fun t => decide (t < now - s.time_window))).length
      < s.max_requests then
    (true, { s with request_timestamps :=
      s.request_timestamps.dropWhile (fun t => decide (t < now - s.time_window)) ++ [now] })
  else
    (false, { s with request_timestamps :=
      s.request_timestamps.dropWhile (fun t => decide (t < now - s.time_window)) })

/-- Run a sequence of `can_make_request` calls at the given times,
collecting the timestamps of the admitted (true-returning) calls. -/
def runCalls (s : RateLimiter) : List ℚ → List ℚ × RateLimiter
  | [] => ([], s)
  | t :: ts =>
    match can_make_request t s with
    | (b, s') =>
      match runCalls s' ts with
      | (adm, sf) => (if b then t :: adm else adm, sf)

/-- The Unicode decimal-digit (Nd) blocks of the CPython runtime's
Unicode data: each block is the ten code points `start..start+9`, the
digit value being the offset from `start`.  `int()` accepts exactly
these characters as digits. -/
def nd_digit_starts : List ℕ :=
  [0x30, 0x660, 0x6f0, 0x7c0, 0x966, 0x9e6, 0xa66, 0xae6, 0xb66, 0xbe6,
   0xc66, 0xce6, 0xd66, 0xde6, 0xe50, 0xed0, 0xf20, 0x1040, 0x1090, 0x17e0,
   0x1810, 0x1946, 0x19d0, 0x1a80, 0x1a90, 0x1b50, 0x1bb0, 0x1c40, 0x1c50, 0xa620,
   0xa8d0, 0xa900, 0xa9d0, 0xa9f0, 0xaa50, 0xabf0, 0xff10, 0x104a0, 0x10d30, 0x11066,
   0x110f0, 0x11136, 0x111d0, 0x112f0, 0x11450, 0x114d0, 0x11650, 0x116c0, 0x11730, 0x118e0,
   0x11950, 0x11c50, 0x11d50, 0x11da0, 0x16a60, 0x16ac0, 0x16b50, 0x1d7ce, 0x1d7d8, 0x1d7e2,
   0x1d7ec, 0x1d7f6, 0x1e140, 0x1e2f0, 0x1e950, 0x1fbf0]

/-- The code-point ranges `str.isdigit` accepts although their
characters carry no decimal value (Unicode `Numeric_Type=Digit`:
superscript, subscript, circled and parenthesized digits, Ethiopic,
Kharoshthi, Rumi, Brahmi number signs, ...).  `int()` raises
`ValueError` on every one of these. -/
def digit_nondecimal_ranges : List (ℕ × ℕ) :=
  [(0xb2, 0xb3), (0xb9, 0xb9), (0x1369, 0x1371), (0x19da, 0x19da),
   (0x2070, 0x2070), (0x2074, 0x2079), (0x2080, 0x2089), (0x2460, 0x2468),
   (0x2474, 0x247c), (0x2488, 0x2490), (0x24ea, 0x24ea), (0x24f5, 0x24fd),
   (0x24ff, 0x24ff), (0x2776, 0x277e), (0x2780, 0x2788), (0x278a, 0x2792),
   (0x10a40, 0x10a43), (0x10e60, 0x10e68), (0x11052, 0x1105a), (0x1f100, 0x1f10a)]

/-- The Unicode decimal value of a character, when it has one. -/
def py_char_decimal (c : Char) : Option ℕ :=
  match nd_digit_starts.find?
      (fun s => decide (s ≤ c.toNat) && decide (c.toNat ≤ s + 9)) with
  | some s => some (c.toNat - s)
  | none => none

/-- Python `str.isdigit`: non-empty, and every character has
`Numeric_Type` Decimal or Digit. -/
def py_isdigit (s : String) : Bool :=
  !s.toList.isEmpty &&
  s.toList.all (fun c =>
    (py_char_decimal c).isSome ||
    digit_nondecimal_ranges.any
      (fun r => decide (r.1 ≤ c.toNat) && decide (c.toNat ≤ r.2)))

/-- Python `int(...)` applied to a string that already passed `isdigit`
(hence contains no sign, whitespace or underscores): it succeeds iff
every character is a decimal digit, yielding the base-10 value of the
digit sequence, and raises `ValueError` (modelled by `none`) otherwise
— e.g. on the superscript two. -/
def py_int_digits (s : String) : Option ℕ :=
  (s.toList.mapM py_char_decimal).map
    (fun ds => ds.foldl (fun n d => n * 10 + d) 0)

/-- Model of `RateLimiter.__init__` with the default arguments
(`max_requests = 60`, `time_window = 3600`): when the
`AI_SEARCH_MAX_REQUESTS_PER_HOUR` environment value (`env`) is truthy
(non-empty) and `isdigit`, the capacity is set to `int(env)` — a call
that raises `ValueError` when the value contains a digit character
without a decimal value, and that exception escapes the constructor
(modelled by `none`).  Otherwise the default capacity is kept. -/
def rateLimiterInit (env : Option String) : Option RateLimiter :=
  match env with
  | none => some ⟨60, 3600, []⟩
  | some v =>
    if v ≠ "" && py_isdigit v then
      match py_int_digits v with
      | some n => some ⟨n, 3600, []⟩
      | none => none
    else some ⟨60, 3600, []⟩

/-- Step characterization of an admitting call. -/
theorem can_make_request_true (now : ℚ) (s : RateLimiter)
    (h : (s.request_timestamps.dropWhile (fun t => decide (t < now - s.time_window))).length
      < s.max_requests) :
    can_make_request now s = (true, { s with request_timestamps := s.request_timestamps.dropWhile (fun t => decide (t < now - s.time_window)) ++ [now] }) := by
  unfold can_make_request
  rw [if_pos h]

/-- Step characterization of a refusing call. -/
theorem can_make_request_false (now : ℚ) (s : RateLimiter)
    (h : ¬ (s.request_timestamps.dropWhile (fun t => decide (t < now - s.time_window))).length
      < s.max_requests) :
    can_make_request now s = (false, { s with request_timestamps := s.request_timestamps.dropWhile (fun t => decide (t < now - s.time_window)) }) := by
  unfold can_make_request
  rw [if_neg h]

/-- Membership in the admitted list implies membership in the call times. -/
theorem mem_runCalls (s : RateLimiter) (ts : List ℚ) (a : ℚ)
    (h : a ∈ (runCalls s ts).1) : a ∈ ts := by
  induction ts generalizing s with
  | nil => simp [runCalls] at h
  | cons t ts ih =>
    simp only [runCalls] at h
    by_cases hcap : (s.request_timestamps.dropWhile
        (fun u => decide (u < t - s.time_window))).length < s.max_requests
    · rw [can_make_request_true t s hcap] at h
      simp only at h
      rcases List.mem_cons.mp h with h | h
      · exact h ▸ List.mem_cons_self _ _
      · exact List.mem_cons_of_mem _ (ih _ h)
    · rw [can_make_request_false t s hcap] at h
      simp only [if_neg Bool.false_ne_true] at h
      exact List.mem_cons_of_mem _ (ih _ h)

/-- Window-counting predicate: the timestamp lies in the trailing
interval `[T - W, T]`. -/
def inWindow (T W : ℚ) (a : ℚ) : Bool := decide (T - W ≤ a) && decide (a ≤ T)

/-- Core invariant: along a run at non-decreasing times, the admitted
timestamps in any window `[T - W, T]`, together with the state's current
in-window timestamps, never exceed the capacity. -/
theorem runCalls_window_bound (M : ℕ) (W T : ℚ) :
    ∀ (ts : List ℚ) (s : RateLimiter), ts.Pairwise (· ≤ ·) →
    s.max_requests = M → s.time_window = W →
    s.request_timestamps.length ≤ M →
    (runCalls s ts).1.countP (inWindow T W) +
      s.request_timestamps.countP (inWindow T W) ≤ M := by
  intro ts
  induction ts with
  | nil =>
    intro s _ hM _ hlen
    simpa [runCalls] using le_trans (List.countP_le_length _) hlen
  | cons t ts ih =>
    intro s hpw hM hW hlen
    have hpw' : ts.Pairwise (· ≤ ·) := hpw.of_cons
    have hhead : ∀ u ∈ ts, t ≤ u := fun u hu => List.rel_of_pairwise_cons hpw hu
    have hsplit : s.request_timestamps.takeWhile
          (fun u => decide (u < t - s.time_window)) ++
        s.request_timestamps.dropWhile (fun u => decide (u < t - s.time_window)) =
        s.request_timestamps :=
      List.takeWhile_append_dropWhile _ _
    have hretlen : (s.request_timestamps.dropWhile
          (fun u => decide (u < t - s.time_window))).length ≤
        s.request_timestamps.length := by
      have hlens := congrArg List.length hsplit
      rw [List.length_append] at hlens
      omega
    have hcount : s.request_timestamps.countP (inWindow T W) =
        (s.request_timestamps.takeWhile (fun u => decide (u < t - s.time_window))).countP
            (inWindow T W) +
          (s.request_timestamps.dropWhile (fun u => decide (u < t - s.time_window))).countP
            (inWindow T W) := by
      conv_lhs => rw [← hsplit]
      exact List.countP_append _ _ _
    rcases le_or_lt t T with hTle | hTgt
    · -- the call time is ≤ T: nothing evicted now was inside the window
      have hevict0 : (s.request_timestamps.takeWhile
          (fun u => decide (u < t - s.time_window))).countP (inWindow T W) = 0 := by
        rw [List.countP_eq_zero]
        intro u hu
        have hup := List.mem_takeWhile_imp hu
        simp only [decide_eq_true_eq] at hup
        rw [hW] at hup
        have hnot : ¬ (T - W ≤ u) := by
          intro hcon
          have : T < t := by linarith
          exact absurd hTle (not_le.mpr this)
        simp [inWindow, hnot]
      by_cases hcap : (s.request_timestamps.dropWhile
          (fun u => decide (u < t - s.time_window))).length < s.max_requests
      · -- admitted
        have hIH := ih { s with request_timestamps :=
            s.request_timestamps.dropWhile (fun u => decide (u < t - s.time_window)) ++ [t] }
          hpw' hM hW (by simp only [List.length_append, List.length_singleton]; omega)
        simp only [runCalls, can_make_request_true t s hcap, if_true,
          List.countP_cons, List.countP_append, List.countP_nil] at hIH ⊢
        rw [hcount]
        omega
      · -- refused
        have hIH := ih { s with request_timestamps :=
            s.request_timestamps.dropWhile (fun u => decide (u < t - s.time_window)) }
          hpw' hM hW (le_trans hretlen hlen)
        simp only [runCalls, can_make_request_false t s hcap,
          if_neg Bool.false_ne_true, List.countP_cons, List.countP_append,
          List.countP_nil] at hIH ⊢
        rw [hcount]
        omega
    · -- the call time is beyond T: every admission from here on is > T
      have hall0 : ((runCalls s (t :: ts)).1).countP (inWindow T W) = 0 := by
        rw [List.countP_eq_zero]
        intro a ha
        have hats : a ∈ t :: ts := mem_runCalls _ _ _ ha
        have haT : T < a := by
          rcases List.mem_cons.mp hats with h | h
          · exact h ▸ hTgt
          · exact lt_of_lt_of_le hTgt (hhead a h)
        simp [inWindow, not_le.mpr haT]
      rw [hall0, Nat.zero_add]
      exact le_trans (List.countP_le_length _) hlen

/-- C1.  Sliding-window rate-limit invariant.  Starting from an empty
window, for every sequence of `can_make_request()` calls at
non-decreasing times:
(1) the number of admitted (true-returning) calls whose recorded
timestamps lie in any trailing interval `[T - time_window, T]` never
exceeds `max_requests`; and
(2) each call evicts exactly a prefix of timestamps, each strictly older
than `now - time_window`, and appends `now` iff the retained count is
strictly below `max_requests`. -/
theorem rate_limiter_sliding_window_bound (M : ℕ) (W : ℚ) (ts : List ℚ)
    (hts : ts.Pairwise (· ≤ ·)) :
    (∀ T : ℚ,
      (runCalls ⟨M, W, []⟩ ts).1.countP (inWindow T W) ≤ M) ∧
    (∀ (now : ℚ) (s : RateLimiter),
      (can_make_request now s).2.request_timestamps
        = s.request_timestamps.dropWhile (fun t => decide (t < now - s.time_window))
          ++ (if (can_make_request now s).1 then [now] else []) ∧
      ((can_make_request now s).1 = true ↔
        (s.request_timestamps.dropWhile
          (fun t => decide (t < now - s.time_window))).length < s.max_requests) ∧
      (∀ t ∈ s.request_timestamps.takeWhile
          (fun t => decide (t < now - s.time_window)),
        t < now - s.time_window)) := by
  constructor
  · intro T
    have := runCalls_window_bound M W T ts ⟨M, W, []⟩ hts rfl rfl (by simp)
    simpa using this
  · intro now s
    by_cases hcap : (s.request_timestamps.dropWhile
        (fun t => decide (t < now - s.time_window))).length < s.max_requests
    · rw [can_make_request_true now s hcap]
      refine ⟨by simp, by simpa using hcap, ?_⟩
      intro t ht
      have := List.mem_takeWhile_imp ht
      simpa using this
    · rw [can_make_request_false now s hcap]
      refine ⟨by simp, by simpa using hcap, ?_⟩
      intro t ht
      have := List.mem_takeWhile_imp ht
      simpa using this

/-- Witness for C1 at a concrete run: capacity 1, window 10, calls at
times 0 and 1 — only one admission lands in the window ending at 1. -/
theorem rate_limiter_sliding_window_bound_witness :
    ([(0 : ℚ), 1].Pairwise (· ≤ ·)) ∧
    (runCalls ⟨1, 10, []⟩ [(0 : ℚ), 1]).1.countP (inWindow 1 10) ≤ 1 := by
  refine ⟨by decide, ?_⟩
  exact (rate_limiter_sliding_window_bound 1 10 [0, 1] (by decide)).1 1

/-- C9.  At capacity with all timestamps inside the window,
`can_make_request` returns `false` and leaves the state unchanged: no
eviction and no append. -/
theorem can_make_request_at_capacity (now : ℚ) (s : RateLimiter)
    (hlen : s.request_timestamps.length = s.max_requests)
    (hwin : ∀ t ∈ s.request_timestamps, ¬ t < now - s.time_window) :
    can_make_request now s = (false, s) := by
  have hdrop : s.request_timestamps.dropWhile
      (fun t => decide (t < now - s.time_window)) = s.request_timestamps := by
    cases hts : s.request_timestamps with
    | nil => simp
    | cons t rest =>
      rw [List.dropWhile_cons_of_neg]
      simp only [decide_eq_true_eq]
      exact hwin t (by rw [hts]; exact List.mem_cons_self _ _)
  unfold can_make_request
  rw [hdrop, if_neg (by omega)]

/-- Witness for C9: a limiter with capacity 1 holding one in-window
timestamp refuses at time 6 without mutation. -/
theorem can_make_request_at_capacity_witness :
    can_make_request 6 ⟨1, 10, [5]⟩ = (false, ⟨1, 10, [5]⟩) :=
  can_make_request_at_capacity 6 ⟨1, 10, [5]⟩ (by decide)
    (by intro t ht; fin_cases ht; norm_num)

/-- C10 counterexample.  The superscript two is a digit string
(`str.isdigit` accepts it), yet the constructor neither overrides the
capacity nor keeps the default: `int()` raises `ValueError`, which
escapes `RateLimiter.__init__` — refuting "overridden when present and
well-formed (a digit string)" together with "the constructor never
raising". -/
theorem rateLimiterInit_isdigit_counterexample :
    py_isdigit "²" = true ∧ rateLimiterInit (some "²") = none :=
  ⟨by decide, by decide⟩

/-- C10 amended.  Construction-time capacity override: a present,
truthy, `isdigit` environment value consisting solely of decimal digits
overrides the default capacity 60 with its base-10 value (so the
Arabic-Indic three overrides to 3); an absent, empty or non-`isdigit`
value is ignored and 60 kept, without raising; but an `isdigit` value
containing a non-decimal digit character (such as a superscript) makes
`int()` raise `ValueError`, which escapes the constructor. -/
theorem rateLimiterInit_env_override (v : String) :
    (∀ n : ℕ, v ≠ "" → py_isdigit v = true → py_int_digits v = some n →
      rateLimiterInit (some v) = some ⟨n, 3600, []⟩) ∧
    (v ≠ "" → py_isdigit v = true → py_int_digits v = none →
      rateLimiterInit (some v) = none) ∧
    (v = "" ∨ py_isdigit v = false →
      rateLimiterInit (some v) = some ⟨60, 3600, []⟩) ∧
    rateLimiterInit none = some ⟨60, 3600, []⟩ := by
  refine ⟨?_, ?_, ?_, rfl⟩
  · intro n hne hd hint
    simp [rateLimiterInit, hne, hd, hint]
  · intro hne hd hint
    simp [rateLimiterInit, hne, hd, hint]
  · intro h
    rcases h with h | h
    · simp [rateLimiterInit, h]
    · simp [rateLimiterInit, h]

/-- Witness for C10-amended: "120" overrides to 120, the Arabic-Indic
three overrides to 3, "12a" and an unset value keep 60, and the
superscript two raises. -/
theorem rateLimiterInit_env_override_witness :
    rateLimiterInit (some "120") = some ⟨120, 3600, []⟩ ∧
    rateLimiterInit (some "٣") = some ⟨3, 3600, []⟩ ∧
    rateLimiterInit (some "12a") = some ⟨60, 3600, []⟩ ∧
    rateLimiterInit (some "²") = none ∧
    rateLimiterInit none = some ⟨60, 3600, []⟩ := by
  have h120 := (rateLimiterInit_env_override "120").1 120
    (by decide) (by decide) (by decide)
  have h3 := (rateLimiterInit_env_override "٣").1 3
    (by decide) (by decide) (by decide)
  have h12a := (rateLimiterInit_env_override "12a").2.2.1 (Or.inr (by decide))
  have hsup := (rateLimiterInit_env_override "²").2.1
    (by decide) (by decide) (by decide)
  exact ⟨h120, h3, h12a, hsup, (rateLimiterInit_env_override "0").2.2.2⟩


/-! ## JSON values and `json.dumps(..., sort_keys=True)` (`db.py`) -/

/-- Shallow model of the Python values stored in a mapped-query dict:
null, booleans, integers, strings, lists and (insertion-ordered)
dictionaries. -/
inductive Json where
  | null : Json
  | bool (b : Bool) : Json
  | num (n : Int) : Json
  | str (s : String) : Json
  | arr (l : List Json) : Json
  | obj (kvs : List (String × Json)) : Json

/-- Code-point lexicographic comparison of character lists — the order
Python uses to sort string keys. -/
def lexLe : List Char → List Char → Bool
  | [], _ => true
  | _ :: _, [] => false
  | a :: as, b :: bs =>
    if a.toNat < b.toNat then true
    else if b.toNat < a.toNat then false
    else lexLe as bs

/-- Python string `<=`: code-point lexicographic order. -/
def strLe (a b : String) : Bool := lexLe a.toList b.toList

theorem lexLe_total (a b : List Char) : lexLe a b = true ∨ lexLe b a = true := by
  induction a generalizing b with
  | nil => exact Or.inl rfl
  | cons x xs ih =>
    cases b with
    | nil => exact Or.inr rfl
    | cons y ys =>
      by_cases h1 : x.toNat < y.toNat
      · left; simp [lexLe, h1]
      · by_cases h2 : y.toNat < x.toNat
        · right; simp [lexLe, h2]
        · rcases ih ys with h | h
          · left; simp [lexLe, h1, h2, h]
          · right; simp [lexLe, h1, h2, h]

theorem lexLe_trans {a b c : List Char} (hab : lexLe a b = true)
    (hbc : lexLe b c = true) : lexLe a c = true := by
  induction a generalizing b c with
  | nil => rfl
  | cons x xs ih =>
    cases b with
    | nil => simp [lexLe] at hab
    | cons y ys =>
      cases c with
      | nil => simp [lexLe] at hbc
      | cons z zs =>
        simp only [lexLe] at hab hbc ⊢
        by_cases hxy : x.toNat < y.toNat
        · by_cases hyz : y.toNat < z.toNat
          · have : x.toNat < z.toNat := Nat.lt_trans hxy hyz
            simp [this]
          · by_cases hzy : z.toNat < y.toNat
            · simp [hyz, hzy] at hbc
            · have hyzeq : y.toNat = z.toNat := Nat.le_antisymm (Nat.not_lt.mp hzy) (Nat.not_lt.mp hyz)
              have : x.toNat < z.toNat := hyzeq ▸ hxy
              simp [this]
        · by_cases hyx : y.toNat < x.toNat
          · simp [hxy, hyx] at hab
          · have hxyeq : x.toNat = y.toNat := Nat.le_antisymm (Nat.not_lt.mp hyx) (Nat.not_lt.mp hxy)
            rw [if_neg hxy, if_neg hyx] at hab
            by_cases hyz : y.toNat < z.toNat
            · have : x.toNat < z.toNat := hxyeq ▸ hyz
              simp [this]
            · by_cases hzy : z.toNat < y.toNat
              · simp [hyz, hzy] at hbc
              · rw [if_neg hyz, if_neg hzy] at hbc
                have h1 : ¬ x.toNat < z.toNat := by omega
                have h2 : ¬ z.toNat < x.toNat := by omega
                rw [if_neg h1, if_neg h2]
                exact ih hab hbc

theorem char_eq_of_toNat_eq {a b : Char} (h : a.toNat = b.toNat) : a = b :=
  Char.eq_of_val_eq (UInt32.eq_of_val_eq (Fin.ext h))

theorem lexLe_antisymm {a b : List Char} (hab : lexLe a b = true)
    (hba : lexLe b a = true) : a = b := by
  induction a generalizing b with
  | nil =>
    cases b with
    | nil => rfl
    | cons y ys => simp [lexLe] at hba
  | cons x xs ih =>
    cases b with
    | nil => simp [lexLe] at hab
    | cons y ys =>
      simp only [lexLe] at hab hba
      by_cases hxy : x.toNat < y.toNat
      · rw [if_neg (by omega), if_pos hxy] at hba
        exact absurd hba Bool.false_ne_true
      · by_cases hyx : y.toNat < x.toNat
        · simp [hxy, hyx] at hab
        · rw [if_neg hxy, if_neg hyx] at hab
          rw [if_neg hyx, if_neg hxy] at hba
          have hx : x = y := char_eq_of_toNat_eq (by omega)
          rw [hx, ih hab hba]

theorem strLe_total (a b : String) : strLe a b = true ∨ strLe b a = true :=
  lexLe_total _ _

theorem strLe_trans {a b c : String} (hab : strLe a b = true)
    (hbc : strLe b c = true) : strLe a c = true :=
  lexLe_trans hab hbc

theorem strLe_antisymm {a b : String} (hab : strLe a b = true)
    (hba : strLe b a = true) : a = b := by
  have h := lexLe_antisymm hab hba
  exact String.ext h

/-- Ordering of serialized object entries `(key, serialized value)` by
key, as applied by `sort_keys=True`. -/
def entryLe (a b : String × String) : Prop := strLe a.1 b.1 = true

instance : DecidableRel entryLe := fun _ _ => instDecidableEqBool _ _

instance : IsTotal (String × String) entryLe :=
  ⟨fun a b => strLe_total a.1 b.1⟩

instance : IsTrans (String × String) entryLe :=
  ⟨fun _ _ _ hab hbc => strLe_trans hab hbc⟩

/-- Stable sort of the serialized entries by key (any correct sort gives
the same result on distinct keys, which is the case for dict keys). -/
def sortEntries : List (String × String) → List (String × String) :=
  List.insertionSort entryLe

/-- JSON string escaping (quote and backslash; other characters pass
through — a deterministic model of the `json.dumps` string encoder). -/
def escapeChar (c : Char) : String :=
  if c = '"' then "\\\"" else if c = '\\' then "\\\\" else String.singleton c

def json_dump_string (s : String) : String :=
  "\"" ++ String.join (s.toList.map escapeChar) ++ "\""

/-- One rendered object entry `"key": value` (the default `": "`
separator of `json.dumps`). -/
def renderEntry (p : String × String) : String :=
  json_dump_string p.1 ++ ": " ++ p.2

mutual
/-- Model of `json.dumps(q, sort_keys=True)`: standard JSON rendering with `", "`
and `": "` separators and the keys of every object sorted.  (Values are
serialized before the entries are sorted; the key-only comparison makes
this order of operations indistinguishable from sorting first.) -/
def dumps : Json → String
  | .null => "null"
  | .bool true => "true"
  | .bool false => "false"
  | .num n => toString n
  | .str s => json_dump_string s
  | .arr l => "[" ++ String.intercalate ", " (dumpsArr l) ++ "]"
  | .obj kvs =>
    "\x7b" ++ String.intercalate ", " ((sortEntries (dumpsEntries kvs)).map renderEntry) ++ "\x7d"

/-- Serialize the elements of a JSON array. -/
def dumpsArr : List Json → List String
  | [] => []
  | j :: rest => dumps j :: dumpsArr rest

/-- Serialize the values of the entries of a JSON object. -/
def dumpsEntries : List (String × Json) → List (String × String)
  | [] => []
  | (k, v) :: rest => (k, dumps v) :: dumpsEntries rest
end

/-- Digest model of `hashlib.md5(hash_string.encode()).hexdigest()`, as an
unspecified deterministic digest of the serialized string; the claims
about the cache key only use that it is a function of the string. -/
def md5_digest (s : String) : ℕ :=
  s.toList.foldl (fun h c => (h * 131 + c.toNat) % 4294967296) 0

/-- Model of `_get_query_hash`: MD5 of the order-independent serialization. -/
def get_query_hash (q : Json) : ℕ := md5_digest (dumps q)

mutual
/-- Every object inside the value has duplicate-free keys (always true
of values arising from Python dicts). -/
def goodKeys : Json → Bool
  | .null => true
  | .bool _ => true
  | .num _ => true
  | .str _ => true
  | .arr l => goodArr l
  | .obj kvs => decide ((kvs.map Prod.fst).Nodup) && goodEntries kvs

def goodArr : List Json → Bool
  | [] => true
  | j :: rest => goodKeys j && goodArr rest

def goodEntries : List (String × Json) → Bool
  | [] => true
  | (_, v) :: rest => goodKeys v && goodEntries rest
end

mutual
/-- Structural equality up to re-ordering of object keys, at every
nesting level: the relation described by C6 ("the same key/value pairs,
differing only in the insertion order of their keys"). -/
inductive EquivJson : Json → Json → Prop where
  | null : EquivJson .null .null
  | bool (b : Bool) : EquivJson (.bool b) (.bool b)
  | num (n : Int) : EquivJson (.num n) (.num n)
  | str (s : String) : EquivJson (.str s) (.str s)
  | arr {l1 l2 : List Json} : EquivArr l1 l2 → EquivJson (.arr l1) (.arr l2)
  | obj {kvs1 mid kvs2 : List (String × Json)} :
      kvs1.Perm mid → EquivEntries mid kvs2 → EquivJson (.obj kvs1) (.obj kvs2)

inductive EquivArr : List Json → List Json → Prop where
  | nil : EquivArr [] []
  | cons {a b : Json} {l1 l2 : List Json} :
      EquivJson a b → EquivArr l1 l2 → EquivArr (a :: l1) (b :: l2)

inductive EquivEntries : List (String × Json) → List (String × Json) → Prop where
  | nil : EquivEntries [] []
  | cons {k : String} {v1 v2 : Json} {l1 l2 : List (String × Json)} :
      EquivJson v1 v2 → EquivEntries l1 l2 → EquivEntries ((k, v1) :: l1) ((k, v2) :: l2)
end

theorem dumpsEntries_eq_map (l : List (String × Json)) :
    dumpsEntries l = l.map (fun p => (p.1, dumps p.2)) := by
  induction l with
  | nil => rfl
  | cons p rest ih =>
    cases p with
    | mk k v => simp [dumpsEntries, ih]

theorem goodEntries_mem {l : List (String × Json)} (hg : goodEntries l = true) :
    ∀ p ∈ l, goodKeys p.2 = true := by
  induction l with
  | nil => intro p hp; simp at hp
  | cons q rest ih =>
    cases q with
    | mk k v =>
      rw [goodEntries, Bool.and_eq_true] at hg
      intro p hp
      rcases List.mem_cons.mp hp with h | h
      · rw [h]; exact hg.1
      · exact ih hg.2 p h

theorem goodArr_mem {l : List Json} (hg : goodArr l = true) :
    ∀ j ∈ l, goodKeys j = true := by
  induction l with
  | nil => intro j hj; simp at hj
  | cons a rest ih =>
    rw [goodArr, Bool.and_eq_true] at hg
    intro j hj
    rcases List.mem_cons.mp hj with h | h
    · rw [h]; exact hg.1
    · exact ih hg.2 j h

/-- Two sorted entry lists that are permutations of each other and have
duplicate-free keys are equal: sortedness by key determines the order. -/
theorem sorted_perm_entries_eq :
    ∀ (l1 l2 : List (String × String)), l1.Perm l2 →
      l1.Pairwise entryLe → l2.Pairwise entryLe →
      (l1.map Prod.fst).Nodup → l1 = l2 := by
  intro l1
  induction l1 with
  | nil =>
    intro l2 hp _ _ _
    exact (List.Perm.nil_eq hp).symm ▸ rfl
  | cons a t1 ih =>
    intro l2 hp hs1 hs2 hnd
    cases l2 with
    | nil => exact absurd hp.symm (by simp)
    | cons b t2 =>
      have hab : a = b := by
        by_contra hne
        have hbmem : b ∈ a :: t1 := hp.symm.subset (List.mem_cons_self b t2)
        have hamem : a ∈ b :: t2 := hp.subset (List.mem_cons_self a t1)
        have hbt1 : b ∈ t1 := by
          rcases List.mem_cons.mp hbmem with h | h
          · exact absurd h.symm hne
          · exact h
        have hat2 : a ∈ t2 := by
          rcases List.mem_cons.mp hamem with h | h
          · exact absurd h hne
          · exact h
        have h1 : entryLe a b := List.rel_of_pairwise_cons hs1 hbt1
        have h2 : entryLe b a := List.rel_of_pairwise_cons hs2 hat2
        have hkey : a.1 = b.1 := strLe_antisymm h1 h2
        have : a.1 ∈ t1.map Prod.fst := hkey ▸ List.mem_map_of_mem Prod.fst hbt1
        rw [List.map_cons, List.nodup_cons] at hnd
        exact hnd.1 this
      subst hab
      have hperm' : t1.Perm t2 := List.Perm.cons_inv hp
      have := ih t2 hperm' hs1.of_cons hs2.of_cons
        (by rw [List.map_cons, List.nodup_cons] at hnd; exact hnd.2)
      rw [this]

/-- Sorting two permuted entry lists with duplicate-free keys gives the
same list. -/
theorem sortEntries_eq_of_perm {l1 l2 : List (String × String)}
    (hp : l1.Perm l2) (hnd : (l1.map Prod.fst).Nodup) :
    sortEntries l1 = sortEntries l2 := by
  apply sorted_perm_entries_eq
  · exact (List.perm_insertionSort entryLe l1).trans
      (hp.trans (List.perm_insertionSort entryLe l2).symm)
  · exact List.sorted_insertionSort entryLe l1
  · exact List.sorted_insertionSort entryLe l2
  · have hpk : ((sortEntries l1).map Prod.fst).Perm (l1.map Prod.fst) :=
      (List.perm_insertionSort entryLe l1).map Prod.fst
    exact hpk.nodup_iff.mpr hnd

mutual
/-- Equivalent JSON values with duplicate-free keys serialize
identically under `sort_keys=True`. -/
theorem equivJson_dumps : ∀ {j1 j2 : Json}, EquivJson j1 j2 →
    goodKeys j1 = true → dumps j1 = dumps j2
  | _, _, .null, _ => rfl
  | _, _, .bool b, _ => rfl
  | _, _, .num n, _ => rfl
  | _, _, .str s, _ => rfl
  | _, _, .arr h, hg => by
    simp only [dumps]
    rw [equivArr_dumpsArr h (goodArr_mem (by simpa [goodKeys] using hg))]
  | _, _, @EquivJson.obj kvs1 mid kvs2 hperm hent, hg => by
    have hg1 : (kvs1.map Prod.fst).Nodup ∧ goodEntries kvs1 = true := by
      simpa [goodKeys, Bool.and_eq_true, decide_eq_true_eq] using hg
    have hnd : (kvs1.map Prod.fst).Nodup := hg1.1
    have hmidgood : ∀ p ∈ mid, goodKeys p.2 = true :=
      fun p hp => goodEntries_mem hg1.2 p (hperm.mem_iff.mpr hp)
    have h2 : dumpsEntries mid = dumpsEntries kvs2 :=
      equivEntries_dumpsEntries hent hmidgood
    have hpermD : (dumpsEntries kvs1).Perm (dumpsEntries mid) := by
      rw [dumpsEntries_eq_map, dumpsEntries_eq_map]
      exact hperm.map _
    have hndD : ((dumpsEntries kvs1).map Prod.fst).Nodup := by
      rw [dumpsEntries_eq_map, List.map_map]
      exact hnd
    simp only [dumps]
    rw [sortEntries_eq_of_perm hpermD hndD, h2]

/-- Pointwise-equivalent arrays of good values serialize identically. -/
theorem equivArr_dumpsArr : ∀ {l1 l2 : List Json}, EquivArr l1 l2 →
    (∀ j ∈ l1, goodKeys j = true) → dumpsArr l1 = dumpsArr l2
  | _, _, .nil, _ => rfl
  | _, _, .cons h hrest, hg => by
    simp only [dumpsArr]
    rw [equivJson_dumps h (hg _ (List.mem_cons_self _ _)),
      equivArr_dumpsArr hrest (fun j hj => hg j (List.mem_cons_of_mem _ hj))]

/-- Pointwise-equivalent entry lists with good values serialize
identically. -/
theorem equivEntries_dumpsEntries : ∀ {l1 l2 : List (String × Json)},
    EquivEntries l1 l2 → (∀ p ∈ l1, goodKeys p.2 = true) →
    dumpsEntries l1 = dumpsEntries l2
  | _, _, .nil, _ => rfl
  | _, _, @EquivEntries.cons k v1 v2 l1 l2 h hrest, hg => by
    simp only [dumpsEntries]
    rw [equivJson_dumps h (hg (k, v1) (List.mem_cons_self _ _)),
      equivEntries_dumpsEntries hrest (fun p hp => hg p (List.mem_cons_of_mem _ hp))]
end

/-- C6.  Cache-key derivation is order-independent: two mapped-query
objects containing exactly the same key/value pairs (differing only in
the insertion order of keys, at every nesting level, keys being
duplicate-free as in any Python dict) receive the same cache key from
`_get_query_hash`. -/
theorem get_query_hash_order_independent (q1 q2 : Json)
    (h : EquivJson q1 q2) (hg : goodKeys q1 = true) :
    get_query_hash q1 = get_query_hash q2 := by
  unfold get_query_hash
  rw [equivJson_dumps h hg]

/-- Witness for C6: the two-field object with its keys in either order. -/
theorem get_query_hash_order_independent_witness :
    get_query_hash (Json.obj [("b", .num 2), ("a", .num 1)])
      = get_query_hash (Json.obj [("a", .num 1), ("b", .num 2)]) := by
  apply get_query_hash_order_independent
  · exact .obj (List.Perm.swap ("a", Json.num 1) ("b", Json.num 2) [])
      (.cons (.num 1) (.cons (.num 2) .nil))
  · decide


/-! ## Search cache (`db.py`: `_search_cache`, `_cache_object`,
`search_and_cache`; `search_utils.py`: `full_search`) -/

/-- A query object / request object: a Python dict with string keys
(insertion-ordered association list). -/
abbrev JDict := List (String × Json)

/-- The `cache_info` sub-document built by `_cache_object`.
`create_timestamp()` is modelled by a numeric timestamp supplied by the
caller. -/
structure CacheInfo where
  api_request : JDict
  query : JDict
  search_type : String
  timestamp : ℕ
  ai_parsing : Option JDict

/-- One document of the `search_cache` collection. -/
structure CacheEntry where
  list_id : ℕ
  cache_info : CacheInfo

/-- The result payloads that cache operations return: an error object
(`log_error` result, identified by its `error_msg`) or the
`{"list_id": ...}` success object. -/
inductive CacheResult where
  | errObj (error_msg : String)
  | listIdObj (list_id : ℕ)
deriving DecidableEq, Repr

/-- Python `{**a, **b}`: keys of `a` in order (values overridden by `b`
where present), then the keys of `b` not in `a`. -/
def pyDictMerge (a b : JDict) : JDict :=
  a.map (fun kv =>
    match b.find? (fun kv2 => kv2.1 = kv.1) with
    | some kv2 => (kv.1, kv2.2)
    | none => kv) ++
  b.filter (fun kv2 => ¬ a.any (fun kv => kv.1 = kv2.1))

/-- The `dict_to_hash` local of `search_and_cache`: the query object
merged with the AI metadata when present. -/
def dict_to_hash (query_object : JDict) (ai_search_metadata : Option JDict) : JDict :=
  match ai_search_metadata with
  | some m => pyDictMerge query_object m
  | none => query_object

/-- Model of `_search_cache`: `count_documents({"list_id": list_id}, limit=1) > 0`.
The boolean oracle `lookup_fail` models a raised `PyMongoError`; on
failure the function returns `(False, error_object)`. -/
def search_cache (store : List CacheEntry) (lookup_fail : Bool) (list_id : ℕ) :
    Bool × Option String :=
  if lookup_fail then (false, some "internal-database-error")
  else (store.any (fun e => e.list_id = list_id), none)

/-- Model of `_cache_object`: delete every entry with the same `list_id`, then
insert the new entry.  `delete_fail` / `insert_fail` model a
`PyMongoError` raised by the respective call (a failing `delete_many`
raises before mutating; a failing `insert_one` leaves the deletion in
place). -/
def cache_object (store : List CacheEntry) (delete_fail insert_fail : Bool)
    (list_id : ℕ) (request_arguments query_object : JDict) (search_type : String)
    (ts : ℕ) (ai_search_metadata : Option JDict) :
    List CacheEntry × (CacheResult × ℕ) :=
  if delete_fail then (store, (.errObj "internal-database-error", 500))
  else
    if insert_fail then
      (store.filter (fun e => ¬ e.list_id = list_id),
        (.errObj "internal-database-error", 500))
    else
      (store.filter (fun e => ¬ e.list_id = list_id) ++
        [⟨list_id, ⟨request_arguments, query_object, search_type, ts, ai_search_metadata⟩⟩],
        (.listIdObj list_id, 200))

/-- Model of `search_and_cache`: hash the query (merged with the optional AI
metadata), check the cache, and only on a miss store the entry via
`_cache_object`; always return the `list_id` on success. -/
def search_and_cache (store : List CacheEntry)
    (lookup_fail delete_fail insert_fail : Bool)
    (request_object query_object : JDict) (search_type : String) (ts : ℕ)
    (ai_search_metadata : Option JDict) :
    List CacheEntry × (CacheResult × ℕ) :=
  match search_cache store lookup_fail
      (get_query_hash (Json.obj (dict_to_hash query_object ai_search_metadata))) with
  | (_, some msg) => (store, (.errObj msg, 500))
  | (cache_hit, none) =>
    if ¬ cache_hit then
      match cache_object store delete_fail insert_fail
          (get_query_hash (Json.obj (dict_to_hash query_object ai_search_metadata)))
          request_object query_object search_type ts ai_search_metadata with
      | (store1, (ret, code)) =>
        if code ≠ 200 then (store1, (ret, code))
        else
          (store1,
            (.listIdObj (get_query_hash (Json.obj
              (dict_to_hash query_object ai_search_metadata))), 200))
    else
      (store,
        (.listIdObj (get_query_hash (Json.obj
          (dict_to_hash query_object ai_search_metadata))), 200))

/-- Model of `full_search` after request validation: build the Mongo query (passed
in as `mongo_query`; the query builder is irrelevant to the caching
claims) and return whatever `search_and_cache` returns. -/
def full_search (request_arguments : JDict) (request_http_code : ℕ)
    (request_error : CacheResult) (mongo_query : JDict)
    (store : List CacheEntry) (lookup_fail delete_fail insert_fail : Bool)
    (ts : ℕ) : List CacheEntry × (CacheResult × ℕ) :=
  if request_http_code ≠ 200 then (store, (request_error, request_http_code))
  else search_and_cache store lookup_fail delete_fail insert_fail
    request_arguments mongo_query "full" ts none

/-- The concrete query used in the C3/C4 counterexamples. -/
def q0 : JDict := [("a", Json.num 1)]

/-- Its cache key. -/
def h0 : ℕ := get_query_hash (Json.obj q0)

/-- A live cache entry for `h0` created at time 0. -/
def entry0 : CacheEntry := ⟨h0, ⟨q0, q0, "full", 0, none⟩⟩

/-- C3 counterexample.  A `search_and_cache` call whose hash already has
a live cache entry does NOT replace it: the store is returned unchanged
(the old entry, created at time 0, survives; no entry with the new call
time 1 is inserted), refuting "the existing (stale) entry is replaced by
delete-then-insert" for the hit path. -/
theorem search_and_cache_hit_keeps_old_entry :
    search_and_cache [entry0] false false false q0 q0 "full" 1 none
      = ([entry0], (.listIdObj h0, 200)) ∧
    (search_and_cache [entry0] false false false q0 q0 "full" 1 none).1
      ≠ [⟨h0, ⟨q0, q0, "full", 1, none⟩⟩] := by
  constructor
  · rfl
  · intro hcon
    have h1 : (search_and_cache [entry0] false false false q0 q0 "full" 1 none).1
        = [entry0] := rfl
    rw [h1] at hcon
    have : entry0.cache_info.timestamp
        = (CacheEntry.mk h0 ⟨q0, q0, "full", 1, none⟩).cache_info.timestamp := by
      rw [List.cons.injEq] at hcon
      rw [hcon.1]
    simp [entry0] at this

/-- C3 amended.  On a cache hit the store is unchanged and the existing
`list_id` is returned; on a miss `_cache_object` deletes any entries
with the hash and inserts exactly one; hence "at most one live entry
per hash" is preserved by every successful `search_and_cache` call. -/
theorem search_and_cache_at_most_one_per_hash
    (store : List CacheEntry) (req q : JDict) (st : String) (ts : ℕ)
    (meta : Option JDict)
    (hinv : ∀ id : ℕ, store.countP (fun e => e.list_id = id) ≤ 1) :
    (store.any (fun e =>
        e.list_id = get_query_hash (Json.obj (dict_to_hash q meta))) = true →
      search_and_cache store false false false req q st ts meta
        = (store,
            (.listIdObj (get_query_hash (Json.obj (dict_to_hash q meta))), 200))) ∧
    (store.any (fun e =>
        e.list_id = get_query_hash (Json.obj (dict_to_hash q meta))) = false →
      search_and_cache store false false false req q st ts meta
        = (store.filter (fun e =>
              ¬ e.list_id = get_query_hash (Json.obj (dict_to_hash q meta))) ++
            [⟨get_query_hash (Json.obj (dict_to_hash q meta)),
              ⟨req, q, st, ts, meta⟩⟩],
          (.listIdObj (get_query_hash (Json.obj (dict_to_hash q meta))), 200))) ∧
    (∀ id : ℕ,
      (search_and_cache store false false false req q st ts meta).1.countP
        (fun e => e.list_id = id) ≤ 1) := by
  refine ⟨?_, ?_, ?_⟩
  · intro hhit
    unfold search_and_cache search_cache
    simp only [if_neg Bool.false_ne_true, hhit]
    simp
  · intro hmiss
    unfold search_and_cache search_cache cache_object
    simp only [if_neg Bool.false_ne_true, hmiss]
    simp
  · intro id
    by_cases hhit : store.any (fun e =>
        e.list_id = get_query_hash (Json.obj (dict_to_hash q meta))) = true
    · have heq : search_and_cache store false false false req q st ts meta
          = (store,
              (.listIdObj (get_query_hash (Json.obj (dict_to_hash q meta))), 200)) := by
        unfold search_and_cache search_cache
        simp only [if_neg Bool.false_ne_true, hhit]
        simp
      rw [heq]
      exact hinv id
    · have hmiss : store.any (fun e =>
          e.list_id = get_query_hash (Json.obj (dict_to_hash q meta))) = false :=
        Bool.eq_false_iff.mpr hhit
      have heq : (search_and_cache store false false false req q st ts meta).1
          = store.filter (fun e =>
              ¬ e.list_id = get_query_hash (Json.obj (dict_to_hash q meta))) ++
            [⟨get_query_hash (Json.obj (dict_to_hash q meta)),
              ⟨req, q, st, ts, meta⟩⟩] := by
        unfold search_and_cache search_cache cache_object
        simp only [if_neg Bool.false_ne_true, hmiss]
        simp
      rw [heq, List.countP_append]
      by_cases hid : id = get_query_hash (Json.obj (dict_to_hash q meta))
      · have hz : (store.filter (fun e =>
            ¬ e.list_id = get_query_hash (Json.obj (dict_to_hash q meta)))).countP
            (fun e => e.list_id = id) = 0 := by
          rw [List.countP_eq_zero]
          intro e he
          have := List.of_mem_filter he
          simp only [decide_eq_true_eq] at this ⊢
          rw [hid]
          exact this
        rw [hz]
        simp only [Nat.zero_add, List.countP_cons, List.countP_nil]
        split <;> omega
      · have ho : ([(⟨get_query_hash (Json.obj (dict_to_hash q meta)),
            ⟨req, q, st, ts, meta⟩⟩ : CacheEntry)]).countP
            (fun e => e.list_id = id) = 0 := by
          rw [List.countP_eq_zero]
          intro e he
          rw [List.mem_singleton] at he
          subst he
          simp only [decide_eq_true_eq]
          intro hcon
          exact hid hcon.symm
        rw [ho]
        have hle : (store.filter (fun e =>
            ¬ e.list_id = get_query_hash (Json.obj (dict_to_hash q meta)))).countP
            (fun e => e.list_id = id)
            ≤ store.countP (fun e => e.list_id = id) :=
          List.Sublist.countP_le _ (List.filter_sublist _)
        have hcap := hinv id
        omega

/-- Witness for C3-amended: a hit call on a one-entry store, checking
the invariant and the hit clause at the concrete inputs. -/
theorem search_and_cache_at_most_one_per_hash_witness :
    (∀ id : ℕ, ([entry0].countP (fun e => e.list_id = id)) ≤ 1) ∧
    search_and_cache [entry0] false false false q0 q0 "full" 1 none
      = ([entry0], (.listIdObj h0, 200)) := by
  have hinv : ∀ id : ℕ, ([entry0].countP (fun e => e.list_id = id)) ≤ 1 := by
    intro id
    simp only [List.countP_cons, List.countP_nil]
    split <;> omega
  refine ⟨hinv, ?_⟩
  have h := (search_and_cache_at_most_one_per_hash [entry0] q0 q0 "full" 1 none hinv).1
  exact h (by rw [List.any_cons]; simp [entry0, h0, dict_to_hash])

/-- C4 counterexample.  When the cache lookup fails, `search_and_cache`
returns the storage-error object with HTTP 500 — the caller does NOT
receive the `list_id` and the request does not succeed, refuting "the
search still succeeds — the caller still receives the list_id". -/
theorem search_and_cache_lookup_failure_aborts :
    search_and_cache [entry0] true false false q0 q0 "full" 1 none
      = ([entry0], (.errObj "internal-database-error", 500)) ∧
    (CacheResult.errObj "internal-database-error" ≠ .listIdObj h0) ∧
    (500 : ℕ) ≠ 200 := by
  refine ⟨rfl, ?_, by decide⟩
  intro hcon
  cases hcon

/-- C4 amended.  Persistence-layer failures abort the request: a failing
cache lookup (and likewise a failing insert on a miss) makes
`search_and_cache` return an `internal-database-error` object with HTTP
500 instead of the `list_id`, and `full_search` propagates that result
verbatim to its caller. -/
theorem persistence_failure_propagates
    (store : List CacheEntry) (req q : JDict) (st : String) (ts : ℕ)
    (meta : Option JDict) (df inf : Bool) :
    (search_and_cache store true df inf req q st ts meta
      = (store, (.errObj "internal-database-error", 500))) ∧
    (store.any (fun e =>
        e.list_id = get_query_hash (Json.obj (dict_to_hash q meta))) = false →
      (search_and_cache store false false true req q st ts meta).2
        = (.errObj "internal-database-error", 500)) ∧
    (∀ (lf : Bool),
      full_search req 200 (.errObj "bad-request") q store lf df inf ts
        = search_and_cache store lf df inf req q "full" ts none) := by
    refine ⟨?_, ?_, ?_⟩
    · unfold search_and_cache search_cache
      simp
    · intro hmiss
      unfold search_and_cache search_cache cache_object
      simp only [if_neg Bool.false_ne_true, hmiss]
      simp
    · intro lf
      unfold full_search
      simp

/-- Witness for C4-amended at concrete inputs (the insert-failure clause
needs the miss hypothesis; the store is empty). -/
theorem persistence_failure_propagates_witness :
    (search_and_cache [] true false false q0 q0 "full" 1 none
      = ([], (.errObj "internal-database-error", 500))) ∧
    ((search_and_cache [] false false true q0 q0 "full" 1 none).2
      = (.errObj "internal-database-error", 500)) ∧
    (full_search q0 200 (.errObj "bad-request") q0 [] true false false 1
      = search_and_cache [] true false false q0 q0 "full" 1 none) := by
  refine ⟨(persistence_failure_propagates [] q0 q0 "full" 1 none false false).1,
    (persistence_failure_propagates [] q0 q0 "full" 1 none false true).2.1 (by rfl),
    (persistence_failure_propagates [] q0 q0 "full" 1 none false false).2.2 true⟩


/-! ## Validated parameters and the parameter mappers
(`ai_glycan_search.py`, `ai_protein_search.py`) -/

/-- Python `str.lower()` (ASCII model). -/
def py_lower (s : String) : String := String.mk (s.toList.map Char.toLower)

/-- Python `str.strip()`: whitespace removed from both ends. -/
def py_strip (s : String) : String :=
  String.mk (((s.toList.dropWhile Char.isWhitespace).reverse.dropWhile
    Char.isWhitespace).reverse)

/-- The schema-validated glycan search parameters
(`GlycanSearchFullSchema`); every field optional.  Numeric fields are
the values after the mapper's `int(...)` conversion.  The `error` field
models the `"error"` key of the error dicts returned by
`advanced_search`. -/
structure GlycanParams where
  error : Option String := none
  glycan_id : Option String := none
  glycan_related : Option String := none
  glycan_id_namespace : Option String := none
  mass_minimum : Option Int := none
  mass_maximum : Option Int := none
  monosaccharides_minimum : Option Int := none
  monosaccharides_maximum : Option Int := none
  mass_type : Option String := none
  organism_name : Option (List String) := none
  organism_condition : Option String := none
  glycan_type : Option String := none
  glycan_subtype : Option String := none
  glycan_name : Option String := none
  glycosylated_protein : Option String := none
  binding_protein : Option String := none
  glycan_motif : Option String := none
  biosynthetic_enzyme : Option String := none
  publication_id : Option String := none
  biomarker_disease : Option String := none
  biomarker_type : Option String := none
deriving DecidableEq, Repr

/-- A numeric range `{"min": ..., "max": ...}` of a mapped query. -/
structure Range where
  min : Int
  max : Int
deriving DecidableEq, Repr

/-- The glycan `organism` filter: the `organism_list` holds the
`glygen_name` of each entry. -/
structure OrganismFilter where
  organism_list : List String
  annotation_category : String
  operation : String
deriving DecidableEq, Repr

/-- The glycan `glycan_identifier` filter. -/
structure GlycanIdentifier where
  glycan_id : String
  subsumption : String
deriving DecidableEq, Repr

/-- The glycan `enzyme` filter. -/
structure EnzymeFilter where
  id : String
  type : String
deriving DecidableEq, Repr

/-- The `biomarker` sub-object (fields added only when present). -/
structure BiomarkerFilter where
  disease_name : Option String
  type : Option String
deriving DecidableEq, Repr

/-- The mapped glycan query produced by the glycan
`_map_search_params_ai`; absent keys are `none`. -/
structure MappedGlycanQuery where
  operation : String
  query_type : String
  mass : Option Range := none
  mass_type : Option String := none
  number_monosaccharides : Option Range := none
  organism : Option OrganismFilter := none
  glycan_identifier : Option GlycanIdentifier := none
  enzyme : Option EnzymeFilter := none
  id_namespace : Option String := none
  glycan_type : Option String := none
  glycan_subtype : Option String := none
  glycan_name : Option String := none
  protein_identifier : Option String := none
  glycan_motif : Option String := none
  pmid : Option String := none
  binding_protein_id : Option String := none
  biomarker : Option BiomarkerFilter := none
deriving DecidableEq, Repr

/-- Glycan mass normalization, exactly as inlined in the glycan mapper:
swap when `min > max`; when `min == max`, lower the minimum by 10 only
if it stays at or above the domain floor, and raise the maximum by 10
only if it stays at or below the domain ceiling. -/
def glycan_mass_range (lo hi floor ceil : Int) : Range :=
  if lo > hi then ⟨hi, lo⟩
  else if lo = hi then
    ⟨if lo ≥ floor + 10 then lo - 10 else lo,
     if hi ≤ ceil - 10 then hi + 10 else hi⟩
  else ⟨lo, hi⟩

/-- Plain swap normalization (monosaccharide count, protein mass): no
widening. -/
def swap_range (lo hi : Int) : Range :=
  if lo > hi then ⟨hi, lo⟩ else ⟨lo, hi⟩

/-- The mapped query built by the glycan `_map_search_params_ai` on an
error-free input, field by field from the source. -/
def map_search_params_ai_glycan_build (p : GlycanParams) : MappedGlycanQuery :=
  { operation := "AND"
    query_type := "search_glycan"
    mass :=
      if p.mass_minimum.isSome || p.mass_maximum.isSome then
        if p.mass_type.getD "Native" = "Native" then
          some (glycan_mass_range (p.mass_minimum.getD 150) (p.mass_maximum.getD 6751)
            150 6751)
        else
          some (glycan_mass_range (p.mass_minimum.getD 206) (p.mass_maximum.getD 8307)
            206 8307)
      else none
    mass_type :=
      if p.mass_minimum.isSome || p.mass_maximum.isSome then
        if p.mass_type.getD "Native" = "Native" then some "Native"
        else some "Permethylated"
      else none
    number_monosaccharides :=
      if p.monosaccharides_minimum.isSome || p.monosaccharides_maximum.isSome then
        some (swap_range (p.monosaccharides_minimum.getD 1)
          (p.monosaccharides_maximum.getD 37))
      else none
    organism :=
      match p.organism_name with
      | some orgs => some ⟨orgs, "", p.organism_condition.getD "or"⟩
      | none => none
    glycan_identifier :=
      match p.glycan_id with
      | some gid =>
        some ⟨gid, if p.glycan_related = some "Subsumption" then "any" else "none"⟩
      | none => none
    enzyme :=
      match p.biosynthetic_enzyme with
      | some e => some ⟨e, "gene"⟩
      | none => none
    id_namespace := p.glycan_id_namespace
    glycan_type := p.glycan_type
    glycan_subtype := p.glycan_subtype
    glycan_name := p.glycan_name
    protein_identifier := p.glycosylated_protein
    glycan_motif := p.glycan_motif
    pmid := p.publication_id
    binding_protein_id := p.binding_protein
    biomarker :=
      if p.biomarker_disease.isSome || p.biomarker_type.isSome then
        some ⟨p.biomarker_disease, p.biomarker_type⟩
      else none }

/-- The payloads flowing through the glycan AI-search pipeline: error
objects (by `error_msg`), the empty dict, validated parameters, a mapped
query, the final metadata object, and a validated request object. -/
inductive ApiPayload where
  | errObj (error_msg : String)
  | emptyObj
  | reqArgs (query : String)
  | params (p : GlycanParams)
  | mapped (m : MappedGlycanQuery)
  | searchMeta (original_query : String) (parsed : GlycanParams)
      (mapped_parameters : MappedGlycanQuery)
deriving DecidableEq, Repr

/-- The glycan `_map_search_params_ai`: an input carrying an `error` key
yields `(\x7b\x7d, 400)`; otherwise the mapped query with 200.  (No
exception can arise on schema-typed inputs, so the `except` branch is
dead.) -/
def map_search_params_ai_glycan (query : GlycanParams) : ApiPayload × ℕ :=
  if query.error.isSome then (.emptyObj, 400)
  else (.mapped (map_search_params_ai_glycan_build query), 200)

/-- The schema-validated protein search parameters
(`ProteinSearchFullSchema` plus the protein-specific fields read by the
protein mapper). -/
structure ProteinParams where
  error : Option String := none
  mass_minimum : Option Int := none
  mass_maximum : Option Int := none
  organism_name : Option String := none
  uniprot_canonical_ac : Option String := none
  refseq_ac : Option String := none
  protein_name : Option String := none
  gene_name : Option String := none
  go_term : Option String := none
  go_id : Option String := none
  pathway_id : Option String := none
  glycosylation_type : Option String := none
  glycosylation_subtype : Option String := none
  glycosylated_aa : Option (List String) := none
  glycosylated_aa_condition : Option String := none
  glycosylation_evidence_type : Option String := none
  disease_name : Option String := none
  disease_id : Option String := none
  binding_glycan_id : Option String := none
  attached_glycan_id : Option String := none
  publication_id : Option String := none
  biomarker_disease : Option String := none
  biomarker_type : Option String := none
deriving DecidableEq, Repr

/-- The protein `glycosylated_aa` filter (`aa_list` may contain `None`
for unrecognized names, as `dict.get` does). -/
structure GlycosylatedAAFilter where
  aa_list : List (Option String)
  operation : String
deriving DecidableEq, Repr

/-- The mapped protein query; `organism` holds the `name` value,
`glycosylation_evidence` may be a stored `None`. -/
structure MappedProteinQuery where
  operation : String
  query_type : String
  mass : Option Range := none
  organism : Option String := none
  uniprot_canonical_ac : Option String := none
  refseq_ac : Option String := none
  protein_name : Option String := none
  gene_name : Option String := none
  go_term : Option String := none
  go_id : Option String := none
  pathway_id : Option String := none
  glycosylation_type : Option String := none
  glycosylation_subtype : Option String := none
  glycosylated_aa : Option GlycosylatedAAFilter := none
  glycosylation_evidence : Option (Option String) := none
  disease_name : Option String := none
  disease_id : Option String := none
  binding_glycan_id : Option String := none
  attached_glycan_id : Option String := none
  pmid : Option String := none
  biomarker : Option BiomarkerFilter := none
deriving DecidableEq, Repr

/-- The amino-acid dictionary of `_map_amino_acids`. -/
def aa_lookup : String → Option String
  | "serine" => some "S"
  | "ser" => some "S"
  | "threonine" => some "T"
  | "thr" => some "T"
  | "asparagine" => some "N"
  | "asn" => some "N"
  | "tyrosine" => some "Y"
  | "tyr" => some "Y"
  | "lysine" => some "K"
  | "lys" => some "K"
  | "tryptophan" => some "W"
  | "trp" => some "W"
  | "aspartic acid" => some "D"
  | "aspartic" => some "D"
  | "asp" => some "D"
  | "cysteine" => some "C"
  | "cys" => some "C"
  | "glutamic acid" => some "E"
  | "glutamic" => some "E"
  | "glu" => some "E"
  | "arginine" => some "R"
  | "arg" => some "R"
  | _ => none

/-- Model of `_map_amino_acids`: lower-case lookup of each name, de-duplicated
(the Python `set` iteration order is abstracted by `dedup`). -/
def map_amino_acids (aa_list_input : List String) : List (Option String) :=
  (aa_list_input.map (fun aa => aa_lookup (py_lower aa))).dedup

/-- Model of `_map_glycosylation_evidence_type`: lower-cased dictionary lookup. -/
def map_glycosylation_evidence_type (glyco_evidence_input : String) : Option String :=
  match py_lower glyco_evidence_input with
  | "all sites" => some "all_sites"
  | "all reported sites" => some "all_reported_sites_with_without_glycans"
  | "all reported sites with or without glycans" =>
    some "all_reported_sites_with_without_glycans"
  | "all reported sites (with or without glycans)" =>
    some "all_reported_sites_with_without_glycans"
  | "sites reported with glycans" => some "sites_reported_with_glycans"
  | "sites reported without glycans" => some "sites_reported_without_glycans"
  | "predicted sites" => some "predicted_sites"
  | "sites detected by literature mining" =>
    some "sites_detected_by_literature_mining"
  | _ => none

/-- The mapped query built by the protein `_map_search_params_ai` on an
error-free input (mass: fill defaults 260 / 4007076 and swap — no
widening branch exists in this mapper). -/
def map_search_params_ai_protein_build (p : ProteinParams) : MappedProteinQuery :=
  { operation := "AND"
    query_type := "search_protein"
    mass :=
      if p.mass_minimum.isSome || p.mass_maximum.isSome then
        some (swap_range (p.mass_minimum.getD 260) (p.mass_maximum.getD 4007076))
      else none
    organism := p.organism_name
    uniprot_canonical_ac := p.uniprot_canonical_ac
    refseq_ac := p.refseq_ac
    protein_name := p.protein_name
    gene_name := p.gene_name
    go_term := p.go_term
    go_id := p.go_id
    pathway_id := p.pathway_id
    glycosylation_type := p.glycosylation_type
    glycosylation_subtype := p.glycosylation_subtype
    glycosylated_aa :=
      match p.glycosylated_aa with
      | some aas => some ⟨map_amino_acids aas, p.glycosylated_aa_condition.getD "or"⟩
      | none => none
    glycosylation_evidence :=
      match p.glycosylation_evidence_type with
      | some s => some (map_glycosylation_evidence_type s)
      | none => none
    disease_name := p.disease_name
    disease_id := p.disease_id
    binding_glycan_id := p.binding_glycan_id
    attached_glycan_id := p.attached_glycan_id
    pmid := p.publication_id
    biomarker :=
      if p.biomarker_disease.isSome || p.biomarker_type.isSome then
        some ⟨p.biomarker_disease, p.biomarker_type⟩
      else none }

/-- The protein `_map_search_params_ai`. -/
def map_search_params_ai_protein (query : ProteinParams) :
    Option MappedProteinQuery × ℕ :=
  if query.error.isSome then (none, 400)
  else (some (map_search_params_ai_protein_build query), 200)

/-! ## LLM retry loop (`llm/openai_api.py`) and endpoint composition -/

/-- One provider attempt: an exception during the call, a `None`
response text, or returned text. -/
inductive ProviderResult where
  | exn
  | noText
  | text (s : String)

/-- The `{"error": "relevancy-error"}` dict. -/
def relevancy_error_params : GlycanParams := { error := some "relevancy-error" }

/-- The `{"error": "key-error"}` dict. -/
def key_error_params : GlycanParams := { error := some "key-error" }

/-- The retry loop of `OpenAILLM.advanced_search`: attempt `i`, with
`rem` retries remaining, carrying the `validated_response` variable.
Exceptions and `None` texts back off and retry; the sentinel `"none"`
(stripped, lowered) returns the relevancy error immediately; a
validation success breaks and returns it; a validation failure retries
with `validated_response = None`. -/
def advanced_search_loop (provider : ℕ → ProviderResult)
    (validate : String → Option GlycanParams) :
    ℕ → ℕ → Option GlycanParams → Option GlycanParams
  | _, 0, acc => acc
  | i, rem + 1, acc =>
    match provider i with
    | .exn => advanced_search_loop provider validate (i + 1) rem acc
    | .noText => advanced_search_loop provider validate (i + 1) rem acc
    | .text s =>
      if py_lower (py_strip s) = "none" then some relevancy_error_params
      else
        match validate s with
        | some p => some p
        | none => advanced_search_loop provider validate (i + 1) rem none

/-- Model of `OpenAILLM.advanced_search`: short-circuit with the key error when
the API key is missing, otherwise run up to `max_retries` attempts.  The
provider oracle gives each attempt's outcome;
`validate_advanced_search_response` is abstracted by `validate`. -/
def advanced_search (has_key : Bool) (provider : ℕ → ProviderResult)
    (validate : String → Option GlycanParams) (max_retries : ℕ) :
    Option GlycanParams :=
  if ¬ has_key then some key_error_params
  else advanced_search_loop provider validate 0 max_retries none

/-- Model of `_parse_full_search_query_ai` (glycan): `None` yields a 400 parse
error; the `key-error` / `relevancy-error` markers yield 401 / 400;
anything else is returned with 200. -/
def parse_full_search_query_ai (adv : Option GlycanParams) : ApiPayload × ℕ :=
  match adv with
  | none => (.errObj "unable-to-parse-query-using-llm", 400)
  | some p =>
    match p.error with
    | some e =>
      if e = "key-error" then (.errObj "llm-key-error", 401)
      else if e = "relevancy-error" then (.errObj "non-glycan-related-query", 400)
      else (.params p, 200)
    | none => (.params p, 200)

/-- Model of `ai_full_search` (glycan): bot check, request validation, rate
limit, parse, map, assemble.  When the mapper fails the function returns
`(mapped_parameters, search_params_http_code)` — the parse step's code,
exactly as in the source.  (A 200 parse result is always a `params`
payload, so the fall-through match arms are unreachable.) -/
def ai_full_search (is_bot : Bool) (request_arguments : ApiPayload × ℕ)
    (user_query : String) (rate_ok : Bool) (adv : Option GlycanParams) :
    ApiPayload × ℕ :=
  if is_bot then (.errObj "no-bots-allowed", 401)
  else if request_arguments.2 ≠ 200 then request_arguments
  else if ¬ rate_ok then (.errObj "rate-limit-exceeded", 429)
  else
    match parse_full_search_query_ai adv with
    | (search_params, search_params_http_code) =>
      if search_params_http_code ≠ 200 then (search_params, search_params_http_code)
      else
        match search_params with
        | .params p =>
          match map_search_params_ai_glycan p with
          | (mapped_parameters, error_code) =>
            if error_code ≠ 200 then (mapped_parameters, search_params_http_code)
            else
              match mapped_parameters with
              | .mapped m => (.searchMeta user_query p m, search_params_http_code)
              | other => (other, search_params_http_code)
        | other => (other, search_params_http_code)


/-- The spec's §4.4 range rule stated from its words, for comparison
with the code: fill a missing bound with the domain default, swap when
`min > max`, and when `min == max` widen each side by the fixed epsilon
10 unless that side would cross the domain floor or ceiling. -/
def spec_normalize_range (lo? hi? : Option Int) (dlo dhi floor ceil : Int) : Range :=
  let lo := lo?.getD dlo
  let hi := hi?.getD dhi
  if lo > hi then ⟨hi, lo⟩
  else if lo = hi then
    ⟨if lo - 10 ≥ floor then lo - 10 else lo,
     if hi + 10 ≤ ceil then hi + 10 else hi⟩
  else ⟨lo, hi⟩

/-- The fill-and-swap-only normalization (no widening), stated from the
amended claim's words. -/
def spec_fill_swap (lo? hi? : Option Int) (dlo dhi : Int) : Range :=
  let lo := lo?.getD dlo
  let hi := hi?.getD dhi
  if lo > hi then ⟨hi, lo⟩ else ⟨lo, hi⟩

theorem glycan_mass_range_min_le_max (lo hi floor ceil : Int) :
    (glycan_mass_range lo hi floor ceil).min ≤ (glycan_mass_range lo hi floor ceil).max := by
  unfold glycan_mass_range
  split_ifs <;> dsimp only <;> omega

theorem swap_range_min_le_max (lo hi : Int) :
    (swap_range lo hi).min ≤ (swap_range lo hi).max := by
  unfold swap_range
  split_ifs <;> dsimp only <;> omega

/-- The inlined glycan mass normalization coincides with the spec's rule
when the widening floor/ceiling are the domain defaults. -/
theorem glycan_mass_range_eq_spec (lo? hi? : Option Int) (dlo dhi floor ceil : Int) :
    glycan_mass_range (lo?.getD dlo) (hi?.getD dhi) floor ceil
      = spec_normalize_range lo? hi? dlo dhi floor ceil := by
  simp only [glycan_mass_range, spec_normalize_range]
  split_ifs <;> first | rfl | (exfalso; omega)

theorem swap_range_eq_spec (lo? hi? : Option Int) (dlo dhi : Int) :
    swap_range (lo?.getD dlo) (hi?.getD dhi) = spec_fill_swap lo? hi? dlo dhi := by
  simp only [swap_range, spec_fill_swap]

/-- Inversion of a successful glycan mapping. -/
theorem map_glycan_ok_inv {g : GlycanParams} {m : MappedGlycanQuery}
    (h : map_search_params_ai_glycan g = (.mapped m, 200)) :
    g.error = none ∧ m = map_search_params_ai_glycan_build g := by
  unfold map_search_params_ai_glycan at h
  cases hg : g.error with
  | some e =>
    rw [hg] at h
    simp at h
  | none =>
    rw [hg] at h
    simp only [Option.isSome_none, Bool.false_eq_true, if_false, Prod.mk.injEq] at h
    have := h.1
    injection this with h2
    exact ⟨rfl, h2.symm⟩

/-- Inversion of a successful protein mapping. -/
theorem map_protein_ok_inv {p : ProteinParams} {m : MappedProteinQuery}
    (h : map_search_params_ai_protein p = (some m, 200)) :
    p.error = none ∧ m = map_search_params_ai_protein_build p := by
  unfold map_search_params_ai_protein at h
  cases hp : p.error with
  | some e =>
    rw [hp] at h
    simp at h
  | none =>
    rw [hp] at h
    simp only [Option.isSome_none, Bool.false_eq_true, if_false, Prod.mk.injEq] at h
    have := h.1
    injection this with h2
    exact ⟨rfl, h2.symm⟩

/-- C2 counterexample.  The claimed epsilon-widening does not exist for
the glycan monosaccharide range (min=max=5 stays {5,5}, while the
claimed rule gives {5,15}) nor for the protein mass range
(min=max=300 stays {300,300}, while the claimed rule gives {290,310}). -/
theorem range_widening_counterexample :
    map_search_params_ai_glycan
        { monosaccharides_minimum := some 5, monosaccharides_maximum := some 5 }
      = (.mapped (map_search_params_ai_glycan_build
          { monosaccharides_minimum := some 5, monosaccharides_maximum := some 5 }),
        200) ∧
    (map_search_params_ai_glycan_build
        { monosaccharides_minimum := some 5,
          monosaccharides_maximum := some 5 }).number_monosaccharides
      = some ⟨5, 5⟩ ∧
    spec_normalize_range (some 5) (some 5) 1 37 1 37 = ⟨5, 15⟩ ∧
    (map_search_params_ai_protein_build
        { mass_minimum := some 300, mass_maximum := some 300 }).mass
      = some ⟨300, 300⟩ ∧
    spec_normalize_range (some 300) (some 300) 260 4007076 260 4007076 = ⟨290, 310⟩ ∧
    Range.mk 5 5 ≠ Range.mk 5 15 ∧ Range.mk 300 300 ≠ Range.mk 290 310 := by
  refine ⟨rfl, by decide, by decide, by decide, by decide, by decide, by decide⟩

/-- C2 amended.  Range normalization as the code implements it: every
range field fills a missing bound with the domain default and swaps a
reversed pair; the epsilon-10 widening (clamped at the domain floor and
ceiling, e.g. Native mass min=max=150 maps to {150, 160}) applies ONLY
to the glycan-domain mass field (both Native and Permethylated); the
glycan monosaccharide count and the protein mass are not widened. -/
theorem range_normalization (g : GlycanParams) (p : ProteinParams)
    (mg : MappedGlycanQuery) (mp : MappedProteinQuery)
    (hg : map_search_params_ai_glycan g = (.mapped mg, 200))
    (hp : map_search_params_ai_protein p = (some mp, 200)) :
    (mg.mass =
      if g.mass_minimum.isSome || g.mass_maximum.isSome then
        if g.mass_type.getD "Native" = "Native" then
          some (spec_normalize_range g.mass_minimum g.mass_maximum 150 6751 150 6751)
        else
          some (spec_normalize_range g.mass_minimum g.mass_maximum 206 8307 206 8307)
      else none) ∧
    (mg.number_monosaccharides =
      if g.monosaccharides_minimum.isSome || g.monosaccharides_maximum.isSome then
        some (spec_fill_swap g.monosaccharides_minimum g.monosaccharides_maximum 1 37)
      else none) ∧
    (mp.mass =
      if p.mass_minimum.isSome || p.mass_maximum.isSome then
        some (spec_fill_swap p.mass_minimum p.mass_maximum 260 4007076)
      else none) := by
  obtain ⟨hge, hmg⟩ := map_glycan_ok_inv hg
  obtain ⟨hpe, hmp⟩ := map_protein_ok_inv hp
  subst hmg
  subst hmp
  refine ⟨?_, ?_, ?_⟩
  · dsimp only [map_search_params_ai_glycan_build]
    rw [glycan_mass_range_eq_spec, glycan_mass_range_eq_spec]
  · dsimp only [map_search_params_ai_glycan_build]
    rw [swap_range_eq_spec]
  · dsimp only [map_search_params_ai_protein_build]
    rw [swap_range_eq_spec]

/-- Witness for C2-amended: the spec's swap example (300, 200) maps to
{200, 300}; a protein mass with only a minimum is filled with the
default maximum and not widened. -/
theorem range_normalization_witness :
    (map_search_params_ai_glycan_build
        { mass_minimum := some 300, mass_maximum := some 200 }).mass
      = some ⟨200, 300⟩ ∧
    (map_search_params_ai_protein_build { mass_minimum := some 50 }).mass
      = some ⟨50, 4007076⟩ := by
  have h := range_normalization
    { mass_minimum := some 300, mass_maximum := some 200 }
    { mass_minimum := some 50 }
    (map_search_params_ai_glycan_build
      { mass_minimum := some 300, mass_maximum := some 200 })
    (map_search_params_ai_protein_build { mass_minimum := some 50 })
    rfl rfl
  exact ⟨h.1.trans (by decide), h.2.2.trans (by decide)⟩

/-- C8.  Every successful mapping (either domain) fixes
`operation = "AND"` and the domain `query_type`, and every numeric range
present in the result satisfies `min ≤ max`. -/
theorem mapped_query_invariants :
    (∀ (g : GlycanParams) (m : MappedGlycanQuery),
      map_search_params_ai_glycan g = (.mapped m, 200) →
      m.operation = "AND" ∧ m.query_type = "search_glycan" ∧
      (∀ r : Range, m.mass = some r → r.min ≤ r.max) ∧
      (∀ r : Range, m.number_monosaccharides = some r → r.min ≤ r.max)) ∧
    (∀ (p : ProteinParams) (m : MappedProteinQuery),
      map_search_params_ai_protein p = (some m, 200) →
      m.operation = "AND" ∧ m.query_type = "search_protein" ∧
      (∀ r : Range, m.mass = some r → r.min ≤ r.max)) := by
  constructor
  · intro g m h
    obtain ⟨hge, hm⟩ := map_glycan_ok_inv h
    subst hm
    refine ⟨rfl, rfl, ?_, ?_⟩
    · intro r hr
      dsimp only [map_search_params_ai_glycan_build] at hr
      revert hr
      split_ifs with h1 h2 <;> intro hr
      · cases Option.some.inj hr
        exact glycan_mass_range_min_le_max _ _ _ _
      · cases Option.some.inj hr
        exact glycan_mass_range_min_le_max _ _ _ _
      · exact absurd hr (by simp)
    · intro r hr
      dsimp only [map_search_params_ai_glycan_build] at hr
      revert hr
      split_ifs with h1 <;> intro hr
      · cases Option.some.inj hr
        exact swap_range_min_le_max _ _
      · exact absurd hr (by simp)
  · intro p m h
    obtain ⟨hpe, hm⟩ := map_protein_ok_inv h
    subst hm
    refine ⟨rfl, rfl, ?_⟩
    intro r hr
    dsimp only [map_search_params_ai_protein_build] at hr
    revert hr
    split_ifs with h1 <;> intro hr
    · cases Option.some.inj hr
      exact swap_range_min_le_max _ _
    · exact absurd hr (by simp)

/-- Witness for C8: the Native-mass example 150/150 (mapped, clamped to
{150, 160}) satisfies all the invariants. -/
theorem mapped_query_invariants_witness :
    (map_search_params_ai_glycan_build
        { mass_minimum := some 150, mass_maximum := some 150 }).operation = "AND" ∧
    (map_search_params_ai_glycan_build
        { mass_minimum := some 150, mass_maximum := some 150 }).query_type
      = "search_glycan" ∧
    (map_search_params_ai_glycan_build
        { mass_minimum := some 150, mass_maximum := some 150 }).mass
      = some ⟨150, 160⟩ ∧
    (150 : Int) ≤ 160 := by
  have h := mapped_query_invariants.1
    { mass_minimum := some 150, mass_maximum := some 150 }
    (map_search_params_ai_glycan_build
      { mass_minimum := some 150, mass_maximum := some 150 })
    rfl
  exact ⟨h.1, h.2.1, by decide, h.2.2.1 ⟨150, 160⟩ (by decide)⟩

/-- C7.  When the parse step succeeds with 200 but the mapper fails (it
returns `(\x7b\x7d, 400)` whenever its input carries an `error` key that is
neither sentinel), `ai_full_search` returns the mapper's failure payload
paired with the PARSE step's HTTP code 200 — not the mapper's 400. -/
theorem map_failure_returns_parse_code (req : ApiPayload × ℕ) (uq v : String)
    (p : GlycanParams) (hreq : req.2 = 200) (hp : p.error = some v)
    (hk : v ≠ "key-error") (hr : v ≠ "relevancy-error") :
    map_search_params_ai_glycan p = (.emptyObj, 400) ∧
    ai_full_search false req uq true (some p) = (.emptyObj, 200) := by
  have hmap : map_search_params_ai_glycan p = (.emptyObj, 400) := by
    unfold map_search_params_ai_glycan
    rw [hp]
    rfl
  have hparse : parse_full_search_query_ai (some p) = (.params p, 200) := by
    simp only [parse_full_search_query_ai, hp]
    rw [if_neg hk, if_neg hr]
  refine ⟨hmap, ?_⟩
  unfold ai_full_search
  rw [hparse]
  simp [hreq, hmap]

/-- Witness for C7: a parameters dict carrying `error = "other-error"`,
with a valid request pair. -/
theorem map_failure_returns_parse_code_witness :
    map_search_params_ai_glycan { error := some "other-error" } = (.emptyObj, 400) ∧
    ai_full_search false (.reqArgs "q", 200) "q" true
        (some { error := some "other-error" })
      = (.emptyObj, 200) :=
  map_failure_returns_parse_code (.reqArgs "q", 200) "q" "other-error"
    { error := some "other-error" } rfl rfl (by decide) (by decide)

/-- C5.  If the provider's first response text strips-and-lowers to the
sentinel `"none"`, `advanced_search` immediately returns the relevancy
error — independently of every later provider response and of the
validator, so no further provider call or retry is consumed — and the
endpoint maps the relevancy error to HTTP 400. -/
theorem relevancy_sentinel_short_circuits (provider : ℕ → ProviderResult)
    (validate : String → Option GlycanParams) (s : String) (rem : ℕ)
    (hp : provider 0 = .text s) (hs : py_lower (py_strip s) = "none") :
    advanced_search true provider validate (rem + 1) = some relevancy_error_params ∧
    (∀ (provider2 : ℕ → ProviderResult) (validate2 : String → Option GlycanParams),
      provider2 0 = .text s →
      advanced_search true provider2 validate2 (rem + 1)
        = some relevancy_error_params) ∧
    parse_full_search_query_ai (advanced_search true provider validate (rem + 1))
      = (.errObj "non-glycan-related-query", 400) ∧
    (∀ (req : ApiPayload × ℕ) (uq : String), req.2 = 200 →
      (ai_full_search false req uq true
        (advanced_search true provider validate (rem + 1))).2 = 400) := by
  have key : ∀ (pr : ℕ → ProviderResult) (va : String → Option GlycanParams),
      pr 0 = .text s →
      advanced_search true pr va (rem + 1) = some relevancy_error_params := by
    intro pr va h0
    unfold advanced_search
    rw [if_neg (by simp)]
    simp [advanced_search_loop, h0, hs]
  have hparse : parse_full_search_query_ai
      (advanced_search true provider validate (rem + 1))
      = (.errObj "non-glycan-related-query", 400) := by
    rw [key provider validate hp]
    decide
  refine ⟨key provider validate hp, fun p2 v2 h2 => key p2 v2 h2, hparse, ?_⟩
  intro req uq hreq
  unfold ai_full_search
  rw [hparse]
  simp [hreq]

/-- Witness for C5: the provider answers `"None"` on every attempt with
the default two retries. -/
theorem relevancy_sentinel_short_circuits_witness :
    advanced_search true (fun _ => .text "None") (fun _ => none) 2
      = some relevancy_error_params ∧
    parse_full_search_query_ai
        (advanced_search true (fun _ => .text "None") (fun _ => none) 2)
      = (.errObj "non-glycan-related-query", 400) ∧
    (ai_full_search false (.reqArgs "q", 200) "q" true
        (advanced_search true (fun _ => .text "None") (fun _ => none) 2)).2 = 400 := by
  have h := relevancy_sentinel_short_circuits (fun _ => .text "None") (fun _ => none)
    "None" 1 rfl (by decide)
  exact ⟨h.1, h.2.2.1, h.2.2.2 (.reqArgs "q", 200) "q" rfl⟩

end GlygenAI


